import Mathlib

/-!
Verification development for the AI-ToolHub backend core:
the single-slot model cache (`llm_service.py`), the training-job
launcher and worker (`app.py` / `training_service.py`), the metrics
callback (`MetricsLoggerCallback.on_log`), the error-analysis agent
(`agent_service.py`) and the chat endpoint (`app.py`).

Python runtime behaviour is embedded shallowly: machine state is passed
explicitly, fallible calls return `Except`, uncaught Python exceptions
are modelled as `PyExc` values, and external effects (model loading,
text generation, file reads) are supplied by environment records of
pure functions.
-/

namespace AIToolHub

/-- Python exception classes that the modelled code can raise. -/
inductive PyExc
  | nameError (name : String)
  | keyError (key : String)
  | valueError (msg : String)
  | runtimeError (msg : String)
  | typeError (msg : String)
  | attributeError (msg : String)
  | ioError (msg : String)
deriving DecidableEq

/-- Rendering of an exception, standing in for `str(e)` /
`traceback.format_exc()` when the code stores an error as text. -/
def pyExcText : PyExc → String
  | .nameError n => "NameError: name " ++ n ++ " is not defined"
  | .keyError k => "KeyError: " ++ k
  | .valueError m => m
  | .runtimeError m => m
  | .typeError m => m
  | .attributeError m => m
  | .ioError m => m

/-! ## llm_service.py — models table and the single-slot cache -/

/-- Row of the `LLMModel` table (`models.py`): the fields the cache
reads (`id`, `name`, `path`). -/
structure LLMModelRec where
  id : Nat
  name : String
  path : String
deriving DecidableEq

/-- The `LLMModel` table; `LLMModel.query.all()` is the list itself. -/
abbrev ModelStore := List LLMModelRec

/-- The lookup `LLMModel.query.get(model_id)`. -/
def findModel (store : ModelStore) (modelId : Nat) : Option LLMModelRec :=
  store.find? (fun m => m.id == modelId)

/-- The `model_cache` dict of `llm_service.py`. In its normal shape it
has the four keys `model_id`, `model`, `tokenizer`, `device`; after
`model_cache.clear()` (line 69) the dict is empty, so any later key
access raises `KeyError`. Loaded model/tokenizer instances are opaque
`Nat` handles. -/
inductive CacheDict
  | full (modelId : Option Nat) (model : Option Nat) (tokenizer : Option Nat) (device : String)
  | cleared
deriving DecidableEq

/-- Whether the slot currently holds `modelId`
(the line-65 test `model_cache["model_id"] == model_id`, which on a
cleared dict would instead raise). -/
def holdsId : CacheDict → Nat → Bool
  | .full mid _ _ _, i => mid == some i
  | .cleared, _ => false

/-- Environment of external ML effects used by `load_model` /
`generate_text`: whether `from_pretrained` succeeds for a given model
id, whether the underlying `model.generate` call succeeds, and the
text it produces. -/
structure LLMEnv where
  loadOk : Nat → Bool
  genOk : Nat → String → Bool
  genText : Nat → String → String

instance {ε α : Type} [DecidableEq ε] [DecidableEq α] : DecidableEq (Except ε α) :=
  fun x y =>
    match x, y with
    | .ok a, .ok b =>
      if h : a = b then .isTrue (h ▸ rfl)
      else .isFalse (fun he => h (Except.ok.inj he))
    | .error a, .error b =>
      if h : a = b then .isTrue (h ▸ rfl)
      else .isFalse (fun he => h (Except.error.inj he))
    | .ok _, .error _ => .isFalse (fun he => Except.noConfusion he)
    | .error _, .ok _ => .isFalse (fun he => Except.noConfusion he)

/-- Result of one `load_model` call: the outcome, the cache afterwards,
and how many `from_pretrained` load attempts were performed. -/
structure LoadResult where
  result : Except PyExc Unit
  cache : CacheDict
  loads : Nat
deriving DecidableEq

/-- Embedding of `llm_service.load_model` (lines 60–92), step for step:
line 65 reads `model_cache["model_id"]` (KeyError on a cleared dict)
and returns on a cache hit; line 68 reads `model_cache["model"]` and,
if a model is resident, line 69 `model_cache.clear()` empties the
whole dict; line 73 looks the record up, raising `ValueError` (the
NotFound error) when absent; line 77 reads `model_cache['device']`,
which raises `KeyError` if the dict was just cleared; lines 79–92 run
the actual load, storing the instance on success and wrapping any
failure in `RuntimeError`. -/
def loadModel (env : LLMEnv) (store : ModelStore) (cache : CacheDict) (modelId : Nat) :
    LoadResult :=
  match cache with
  | .cleared => ⟨.error (.keyError "model_id"), .cleared, 0⟩
  | .full mid mdl tok dev =>
    if mid = some modelId then
      ⟨.ok (), .full mid mdl tok dev, 0⟩
    else
      match mdl with
      | some _ =>
        -- eviction: model_cache.clear() drops every key, device included
        match findModel store modelId with
        | none =>
          ⟨.error (.valueError ("Model with ID " ++ Nat.repr modelId
              ++ " not found in the database.")), .cleared, 0⟩
        | some _ =>
          -- line 77: print(f"... {model_cache['device']} ...") on the emptied dict
          ⟨.error (.keyError "device"), .cleared, 0⟩
      | none =>
        match findModel store modelId with
        | none =>
          ⟨.error (.valueError ("Model with ID " ++ Nat.repr modelId
              ++ " not found in the database.")), .full mid mdl tok dev, 0⟩
        | some _ =>
          if env.loadOk modelId then
            ⟨.ok (), .full (some modelId) (some modelId) (some modelId) dev, 1⟩
          else
            ⟨.error (.runtimeError ("Failed to load model " ++ Nat.repr modelId)),
              .full mid mdl tok dev, 1⟩

/-- Result of one `generate_text` call. -/
structure GenResult where
  result : Except PyExc String
  cache : CacheDict
  loads : Nat
deriving DecidableEq

/-- Embedding of `llm_service.generate_text` (lines 94–113): calls `load_model`
(exceptions propagate together with any cache mutation it made), then
re-checks the slot at line 98 and runs the generation, wrapping
runtime failures in `RuntimeError`. -/
def generateText (env : LLMEnv) (store : ModelStore) (cache : CacheDict)
    (modelId : Nat) (prompt : String) : GenResult :=
  let lr := loadModel env store cache modelId
  match lr.result with
  | .error e => ⟨.error e, lr.cache, lr.loads⟩
  | .ok _ =>
    match lr.cache with
    | .cleared => ⟨.error (.keyError "model_id"), .cleared, lr.loads⟩
    | .full mid mdl _ _ =>
      if mid = some modelId ∧ mdl ≠ none then
        if env.genOk modelId prompt then
          ⟨.ok (env.genText modelId prompt), lr.cache, lr.loads⟩
        else
          ⟨.error (.runtimeError ("Failed to generate text with model "
              ++ Nat.repr modelId)), lr.cache, lr.loads⟩
      else
        ⟨.error (.runtimeError ("Model " ++ Nat.repr modelId
            ++ " could not be loaded for inference.")), lr.cache, lr.loads⟩

/-! Concrete fixtures used by counterexamples and witnesses. -/

/-- Environment where every external load and generation succeeds. -/
def envOK : LLMEnv :=
  ⟨fun _ => true, fun _ _ => true, fun _ _ => "generated text"⟩

/-- Store with two downloaded models, ids 1 and 2. -/
def store12 : ModelStore := [⟨1, "m1", "p1"⟩, ⟨2, "m2", "p2"⟩]

/-- Store with only model id 1. -/
def store1 : ModelStore := [⟨1, "m1", "p1"⟩]

/-- Cache slot in its normal shape, holding loaded model 1. -/
def cacheHolding1 : CacheDict := .full (some 1) (some 1) (some 1) "cpu"

/-- Cache slot in its initial empty shape (all values `None`). -/
def cacheEmpty : CacheDict := .full none none none "cpu"

/-! ## models.py / training_service.py / app.py — jobs, worker, launcher -/

/-- Status values of a `TrainingJob` row. -/
inductive JobStatus
  | pending
  | running
  | completed
  | failed
deriving DecidableEq

/-- Row of the `TrainingJob` table (`models.py`), generic in the type
`α` of one metrics snapshot (a Python dict of training fields).
`logs` and `metrics` are nullable columns. -/
structure JobRec (α : Type) where
  id : Nat
  modelId : Nat
  datasetId : Nat
  settingsEpochs : Nat
  settingsBatch : Nat
  status : JobStatus
  completedAt : Option Nat
  logs : Option String
  metrics : Option (List α)
deriving DecidableEq

/-- Row of the `Dataset` table. -/
structure DatasetRec where
  id : Nat
  filename : String
  path : String
deriving DecidableEq

/-- Embedding of `MetricsLoggerCallback.on_log` (training_service.py lines 16–33):
skip when the Trainer passed `logs=None`; re-fetch the job fresh from
the store (here: the `Option (JobRec α)` argument) and no-op when it is
gone; coerce a `None` metrics column to `[]`, append the event, append
`str(logs) + '\n'` to the text logs, and commit (the returned record is
the newly committed row). `job.logs` is a nullable column: if it were
still `None`, the `+=` would raise `TypeError` and nothing would be
committed. -/
def onLog {α : Type} (render : α → String) (db : Option (JobRec α))
    (ev : Option α) : Except PyExc (Option (JobRec α)) :=
  match ev with
  | none => .ok db
  | some fields =>
    match db with
    | none => .ok none
    | some job =>
      match job.logs with
      | none => .error (.typeError "unsupported operand types NoneType and str")
      | some l =>
        .ok (some { job with
          metrics := some (job.metrics.getD [] ++ [fields]),
          logs := some (l ++ render fields ++ "\n") })

/-- A whole sequence of progress-callback invocations, each committing
before the next fires; an exception aborts the remainder. -/
def processLogs {α : Type} (render : α → String) (db : Option (JobRec α)) :
    List (Option α) → Except PyExc (Option (JobRec α))
  | [] => .ok db
  | ev :: rest =>
    match onLog render db ev with
    | .ok db' => processLogs render db' rest
    | .error e => .error e

/-- Outcome of one `run_training` invocation: either the function
returned, or a Python exception escaped it uncaught. -/
inductive RunOutcome
  | finished
  | uncaught (e : PyExc)
deriving DecidableEq

/-- The worker's external-effect oracle: whether the tokenizer load,
base-model load, or training-dataset read raise. -/
structure WorkerEnv where
  tokenizerFails : Bool
  modelLoadFails : Bool
  datasetFails : Bool

/-- The exception that the `try` block of `run_training` (lines 80–164)
raises. Every control path raises: either one of the external setup
steps fails (missing model/dataset rows surface as `AttributeError`
when `job.model` / `job.dataset` is `None`, loads raise per the
environment), or — with setup fully successful — line 137
`MetricsLoggerCallback(job_id=job_id)` raises `NameError`, because
`job_id` is an undefined name inside `run_training` (the parameter is
`args.job_id`). -/
def workerTryExc {α : Type} (env : WorkerEnv) (models : ModelStore)
    (datasets : List DatasetRec) (job : JobRec α) : PyExc :=
  match findModel models job.modelId with
  | none => .attributeError "NoneType object has no attribute huggingface_id"
  | some _ =>
    if env.tokenizerFails then .runtimeError "tokenizer load failed"
    else if env.modelLoadFails then .runtimeError "base model load failed"
    else
      match datasets.find? (fun d => d.id == job.datasetId) with
      | none => .attributeError "NoneType object has no attribute filename"
      | some _ =>
        if env.datasetFails then .ioError "could not read dataset file"
        else .nameError "job_id"

/-- The `except` clause of `run_training` (lines 166–171): its first
statement evaluates the f-string containing the undefined name
`job_id`, so the handler itself raises `NameError` before reaching
`job.status = 'failed'`. The original exception is replaced and nothing
further is committed. -/
def workerExceptHandler (_e : PyExc) : RunOutcome :=
  .uncaught (.nameError "job_id")

/-- Embedding of `run_training` (training_service.py lines 66–171) as a function
from the job row (as found by the line-75 query) to the list of job
states committed by this run, in commit order, together with the run's
outcome. If the row is absent the worker logs locally and returns
without side effects. Otherwise the first commit (lines 82–84) sets
`status = 'running'` and resets `logs`; after that, the `try` block
always raises (`workerTryExc`) and the handler converts this into an
uncaught `NameError`, so no further job state is ever committed. -/
def runTraining {α : Type} (env : WorkerEnv) (models : ModelStore)
    (datasets : List DatasetRec) (db : Option (JobRec α)) :
    List (JobRec α) × RunOutcome :=
  match db with
  | none => ([], .finished)
  | some job =>
    let j1 : JobRec α :=
      { job with status := .running, logs := some "Training started...\n" }
    ([j1], workerExceptHandler (workerTryExc env models datasets j1))

/-- Request body of `POST /api/v1/jobs/start`. -/
structure StartJobReq where
  modelId : Nat
  datasetId : Nat
  epochs : Option Nat
  batch : Option Nat
  evalDatasetId : Option Nat

/-- Python truthiness of `data.get('eval_dataset_id')`. -/
def evalTruthy : Option Nat → Bool
  | some v => v != 0
  | none => false

/-- Observable side effects of the launcher, in program order. -/
inductive LaunchEv
  | commitJob
  | spawnWorker
deriving DecidableEq

/-- What one `start_job` call produced. -/
structure LaunchResult (α : Type) where
  job : JobRec α
  command : List String
  events : List LaunchEv
  responseJobId : Nat
  responseCode : Nat
deriving DecidableEq

/-- Embedding of `start_job` (app.py lines 225–241): build the settings map from the
request with defaults 1/1, create the `TrainingJob` row (column
defaults: `status='pending'`, `completed_at`/`logs`/`metrics` null),
commit it, then build the worker command line — interpreter, script
path, the job id, the two settings flags and, when
`data.get('eval_dataset_id')` is truthy, the eval-dataset flag — spawn
the worker without waiting, and answer 202 with the job id. -/
def startJob (α : Type) (req : StartJobReq) (newId : Nat) : LaunchResult α :=
  let epochs := req.epochs.getD 1
  let batch := req.batch.getD 1
  let job : JobRec α :=
    { id := newId, modelId := req.modelId, datasetId := req.datasetId,
      settingsEpochs := epochs, settingsBatch := batch,
      status := .pending, completedAt := none, logs := none, metrics := none }
  let command :=
    ["python", "training_service.py", Nat.repr newId,
      "--num_train_epochs", Nat.repr epochs,
      "--per_device_train_batch_size", Nat.repr batch]
    ++ (if evalTruthy req.evalDatasetId then
          ["--eval_dataset_id", Nat.repr (req.evalDatasetId.getD 0)]
        else [])
  { job := job, command := command,
    events := [.commitJob, .spawnWorker],
    responseJobId := newId, responseCode := 202 }

/-! Fixtures for the job claims. -/

/-- A fresh pending job row, id 1, referencing model 1 and dataset 1. -/
def job0 : JobRec Nat := ⟨1, 1, 1, 1, 1, .pending, none, none, none⟩

/-- Dataset table with one row, id 1. -/
def datasets1 : List DatasetRec := [⟨1, "d1", "dp1"⟩]

/-- Worker environment in which every external setup step succeeds. -/
def envWorkerOK : WorkerEnv := ⟨false, false, false⟩

/-- The forward-only ordering on job statuses, with `completed` and
`failed` both terminal. -/
def statusRank : JobStatus → Nat
  | .pending => 0
  | .running => 1
  | .completed => 2
  | .failed => 2

/-- Whether a status is terminal. -/
def isTerminal : JobStatus → Bool
  | .completed => true
  | .failed => true
  | _ => false

/-- The `completed_at` / `status` coupling claimed for every job row. -/
def jobInvariant {α : Type} (j : JobRec α) : Prop :=
  j.completedAt ≠ none ↔ j.status = .completed

/-- One admissible status transition: rank never decreases and a
terminal status never changes. -/
def statusStep {α : Type} (a b : JobRec α) : Prop :=
  statusRank a.status ≤ statusRank b.status ∧
  (isTerminal a.status = true → b.status = a.status)

/-- A request with no optional fields set. -/
def reqPlain : StartJobReq := ⟨1, 1, none, none, none⟩

/-- A mid-training job row as the metrics callback re-fetches it. -/
def jobRunning : JobRec Nat := ⟨3, 1, 1, 1, 1, .running, none, some "L", some []⟩

/-- State of `jobRunning` after one metrics-callback commit for the event `7`. -/
def jobRunningAfter : JobRec Nat :=
  { jobRunning with
    metrics := some ((some ([] : List Nat)).getD [] ++ [7]),
    logs := some ("L" ++ Nat.repr 7 ++ "\n") }

/-- Request naming an eval dataset (id 7) besides the settings. -/
def req7 : StartJobReq := ⟨1, 1, some 2, some 4, some 7⟩

/-! ## agent_service.py — response parsing (lines 66–75)

Python strings are modelled as `List Char`; `str.split(sep, 1)`,
`str.replace(old, new)` and `str.strip()` are implemented below with
Python's semantics for non-empty separators. -/

/-- Python `s.split(sep, 1)` restricted to the found case: `some (a, b)` when
`sep` first occurs after prefix `a`, with `b` the remainder after that
occurrence; `none` when `sep` does not occur (for non-empty `sep`). -/
def splitOnce (sep : List Char) : List Char → Option (List Char × List Char)
  | [] => if sep.isPrefixOf [] then some ([], []) else none
  | c :: rest =>
    if sep.isPrefixOf (c :: rest) then some ([], (c :: rest).drop sep.length)
    else
      match splitOnce sep rest with
      | some (a, b) => some (c :: a, b)
      | none => none

/-- The Python `in` test for a non-empty needle. -/
def containsSeq (sep s : List Char) : Bool := (splitOnce sep s).isSome

/-- Fuel-indexed scanner for `replaceAll`; each step consumes at least
one character, so fuel `s.length` always suffices. Structural
recursion on the fuel keeps the definition kernel-computable. -/
def replaceAllAux (old new : List Char) : Nat → List Char → List Char
  | 0, s => s
  | _ + 1, [] => []
  | fuel + 1, c :: rest =>
    if old ≠ [] ∧ old.isPrefixOf (c :: rest) = true then
      new ++ replaceAllAux old new fuel ((c :: rest).drop old.length)
    else
      c :: replaceAllAux old new fuel rest

/-- Python `s.replace(old, new)` for non-empty `old`: replace every
non-overlapping occurrence, scanning left to right. -/
def replaceAll (old new s : List Char) : List Char :=
  replaceAllAux old new s.length s

/-- The whitespace characters `str.strip()` removes. -/
def isPySpace (c : Char) : Bool :=
  c == ' ' || c == '\t' || c == '\n' || c == '\r' || c == '\x0b' || c == '\x0c'

/-- Python `s.strip()`. -/
def pyStrip (s : List Char) : List Char :=
  ((s.dropWhile isPySpace).reverse.dropWhile isPySpace).reverse

/-- The first section marker of the agent prompt. -/
def explMarker : List Char := "EXPLANATION:".toList

/-- The second section marker of the agent prompt. -/
def fixMarker : List Char := "PROPOSED_FIX:".toList

/-- Default stored when no explanation could be parsed. -/
def explPlaceholder : List Char := "Could not parse explanation.".toList

/-- Default stored when no proposed fix could be parsed. -/
def fixPlaceholder : List Char := "Could not parse proposed fix.".toList

/-- The response parsing of `analyze_error` (agent_service.py lines 66–75):
defaults are the two placeholders; if `PROPOSED_FIX:` occurs, split at
its first occurrence, the explanation being the part before with all
`EXPLANATION:` occurrences removed and stripped, the fix the part after,
stripped; otherwise, if `EXPLANATION:` occurs, the explanation is the
whole response with its occurrences removed and stripped. -/
def parseResponse (r : List Char) : List Char × List Char :=
  match splitOnce fixMarker r with
  | some (a, b) => (pyStrip (replaceAll explMarker [] a), pyStrip b)
  | none =>
    if containsSeq explMarker r then
      (pyStrip (replaceAll explMarker [] r), fixPlaceholder)
    else
      (explPlaceholder, fixPlaceholder)

/-- A well-formed model response used as the parsing witness. -/
def responseBoth : List Char := "EXPLANATION: why\nPROPOSED_FIX: diff".toList

/-! ## agent_service.py — analyze_error (lines 7–88) -/

/-- Status values of a `CapturedError` row. -/
inductive ErrStatus
  | new
  | analyzing
  | analyzed
  | analysisFailed
deriving DecidableEq

/-- Row of the `CapturedError` table (`models.py`). -/
structure ErrorRec where
  id : Nat
  traceback : String
  filePath : Option String
  lineNumber : Option Nat
  status : ErrStatus
  analysis : Option String
  proposedFix : Option String
deriving DecidableEq

/-- External effects private to the agent: the source-file read. -/
structure AgentEnv where
  fileRead : Except String String

/-- The fixed-structure analysis prompt (lines 42–61), containing the
traceback, the source text and the two requested section markers. -/
def buildPrompt (tb src fp : String) : String :=
  "You are an expert software engineer debugging a Python Flask application. "
    ++ "ERROR TRACEBACK: " ++ tb
    ++ " FULL SOURCE CODE of " ++ fp ++ ": " ++ src
    ++ " INSTRUCTIONS: first provide a brief clear EXPLANATION: of the root cause, "
    ++ "second provide a PROPOSED_FIX: in a git-style diff format."

/-- The `try` block of `analyze_error` after the `analyzing` commit
(lines 25–81): best-effort source read (a failure is converted to a
placeholder, line 30, never aborting), abort with `RuntimeError` when
no model is registered (line 36), otherwise generate with the first
model (exceptions propagate, together with any cache mutation
`generate_text` made), parse, and return the `analyzed` record. -/
def analyzeBody (aenv : AgentEnv) (lenv : LLMEnv) (store : ModelStore)
    (cache : CacheDict) (e1 : ErrorRec) : Except PyExc ErrorRec × CacheDict :=
  let src :=
    match aenv.fileRead with
    | .ok s => s
    | .error m => "Could not read source file: " ++ m
  match store with
  | [] => (.error (.runtimeError "No local LLM models available for analysis."), cache)
  | m0 :: _ =>
    let gr := generateText lenv store cache m0.id
      (buildPrompt e1.traceback src (e1.filePath.getD "None"))
    match gr.result with
    | .error e => (.error e, gr.cache)
    | .ok text =>
      let p := parseResponse text.toList
      (.ok { e1 with
          analysis := some (String.mk p.1),
          proposedFix := some (String.mk p.2),
          status := .analyzed }, gr.cache)

/-- Embedding of `analyze_error` (lines 7–88): no-op when the row is absent; commit
`status = 'analyzing'`; then either the `try` block's committed result,
or — for ANY exception it raised — the `except` clause's committed
record: `status = 'analysis_failed'` with the failure trace stored as
the analysis. The function's return type has no exception channel: the
handler catches every `Exception`, so nothing ever escapes the agent. -/
def analyzeError (aenv : AgentEnv) (lenv : LLMEnv) (store : ModelStore)
    (cache : CacheDict) (db : Option ErrorRec) : Option ErrorRec × CacheDict :=
  match db with
  | none => (none, cache)
  | some err =>
    let e1 := { err with status := ErrStatus.analyzing }
    let p := analyzeBody aenv lenv store cache e1
    match p.1 with
    | .ok r => (some r, p.2)
    | .error e =>
      (some { e1 with
          status := .analysisFailed,
          analysis := some ("Failed to complete analysis.\n\n" ++ pyExcText e) }, p.2)

/-- A captured error row as the global fault handler creates it. -/
def err0 : ErrorRec :=
  ⟨1, "Traceback (most recent call last): boom", some "app.py", some 10, .new, none, none⟩

/-! ## app.py — chat endpoint (lines 136–162) and global handler (296–318) -/

/-- Row of the `Conversation` table. -/
structure ConvRec where
  id : Nat
  title : String
  userId : Nat
  modelId : Nat
deriving DecidableEq

/-- Row of the `ChatMessage` table. -/
structure MsgRec where
  convId : Nat
  role : String
  content : String
deriving DecidableEq

/-- The committed database state the chat flow touches. -/
structure ChatDB where
  convs : List ConvRec
  msgs : List MsgRec
  capturedErrors : List String
deriving DecidableEq

/-- Body of `POST /api/v1/chat`. -/
structure ChatReq where
  modelId : Nat
  prompt : String
  conversationId : Option Nat
  userId : Nat

/-- An HTTP response: success JSON or a structured error JSON. -/
inductive HttpResp
  | okJson (text : String) (convId : Nat)
  | errJson (msg : String) (code : Nat)
deriving DecidableEq

/-- Lines 147–153: with a truthy `conversation_id`, look the
conversation up (`first_or_404` raising on a miss — `none` here);
otherwise create a new conversation with the truncated-title rule and
flush it (id assigned, row still uncommitted in the session). Returns
the conversation id and the session's pending conversation rows. -/
def convSetup (db : ChatDB) (req : ChatReq) (nextConvId : Nat) :
    Option (Nat × List ConvRec) :=
  if (match req.conversationId with
      | some cid => cid != 0
      | none => false) then
    match db.convs.find? (fun c =>
        c.id == req.conversationId.getD 0 && c.userId == req.userId) with
    | some conv => some (conv.id, [])
    | none => none
  else
    let title :=
      if req.prompt.length > 40 then req.prompt.take 40 ++ "..." else req.prompt
    some (nextConvId, [⟨nextConvId, title, req.userId, req.modelId⟩])

/-- The exception classes named by the endpoint's
`except (ValueError, RuntimeError)` clause (line 161). -/
def isCaught : PyExc → Bool
  | .valueError _ => true
  | .runtimeError _ => true
  | _ => false

/-- Embedding of `chat_endpoint` (lines 136–162) composed with the global
`handle_exception` handler (lines 296–318). The user message is added
to the session pending; on generation success the bot message is added
and everything commits; on a caught exception (`ValueError` /
`RuntimeError`) a structured error returns and the pending rows are
never committed; on any other exception the global handler runs in the
same session — its `db.session.commit()` for the new `CapturedError`
row also commits the pending conversation and user message. -/
def chatEndpoint (lenv : LLMEnv) (store : ModelStore) (db : ChatDB)
    (cache : CacheDict) (req : ChatReq) (nextConvId : Nat) :
    HttpResp × ChatDB × CacheDict :=
  match convSetup db req nextConvId with
  | none => (.errJson "Not Found" 404, db, cache)
  | some (cid, pendingConvs) =>
    let userMsg : MsgRec := ⟨cid, "user", req.prompt⟩
    let gr := generateText lenv store cache req.modelId req.prompt
    match gr.result with
    | .ok text =>
      (.okJson text cid,
        { convs := db.convs ++ pendingConvs,
          msgs := db.msgs ++ [userMsg, ⟨cid, "bot", text⟩],
          capturedErrors := db.capturedErrors }, gr.cache)
    | .error e =>
      if isCaught e then
        (.errJson (pyExcText e) 500, db, gr.cache)
      else
        (.errJson "An internal server error occurred." 500,
          { convs := db.convs ++ pendingConvs,
            msgs := db.msgs ++ [userMsg],
            capturedErrors := db.capturedErrors ++ [pyExcText e] }, gr.cache)

/-- Empty chat database. -/
def dbEmpty : ChatDB := ⟨[], [], []⟩

/-! ## Theorems -/

/-- C2: requesting model 2 while the slot holds model 1 (both records
present, all loads able to succeed) does NOT end with the slot holding
model 2: `model_cache.clear()` also deletes the `device` key, so the
very next access raises `KeyError` and the call aborts with the cache
left as an empty dict. The swap path can never succeed. -/
theorem loadModel_swap_keyerror :
    loadModel envOK store12 cacheHolding1 2 =
      ⟨.error (.keyError "device"), .cleared, 0⟩ ∧
    CacheDict.cleared ≠ CacheDict.full (some 2) (some 2) (some 2) "cpu" := by
  constructor
  · rfl
  · intro h
    exact CacheDict.noConfusion h

/-- C7: acquiring an id after a successful acquire of that id is a pure
cache hit — the second `load_model` call returns at the line-65 check
with the slot unchanged and performs no load I/O; and whenever the slot
did not already hold the id, the first (successful) call performed
exactly one load. Hence two acquires of the same id in a row perform
exactly one load. -/
theorem loadModel_second_acquire (env : LLMEnv) (store : ModelStore)
    (c : CacheDict) (i : Nat)
    (h : (loadModel env store c i).result = .ok ()) :
    loadModel env store (loadModel env store c i).cache i =
      ⟨.ok (), (loadModel env store c i).cache, 0⟩ ∧
    (holdsId c i = false → (loadModel env store c i).loads = 1) := by
  cases c with
  | cleared => simp [loadModel] at h
  | full mid mdl tok dev =>
    by_cases hm : mid = some i
    · constructor
      · simp [loadModel, hm]
      · intro hf
        simp [holdsId, hm] at hf
    · cases mdl with
      | some m =>
        cases hfind : findModel store i with
        | none => simp [loadModel, hm, hfind] at h
        | some r => simp [loadModel, hm, hfind] at h
      | none =>
        cases hfind : findModel store i with
        | none => simp [loadModel, hm, hfind] at h
        | some r =>
          by_cases hl : env.loadOk i
          · constructor
            · simp [loadModel, hm, hfind, hl]
            · intro _
              simp [loadModel, hm, hfind, hl]
          · simp [loadModel, hm, hfind, hl] at h

/-- Witness for `loadModel_second_acquire`: from the initial empty slot,
acquiring model 1 (present in the store, load succeeding) succeeds, the
second acquire is I/O-free and leaves the slot as is, and the first
acquire performed exactly one load. -/
theorem loadModel_second_acquire_witness :
    (loadModel envOK store1 cacheEmpty 1).result = .ok () ∧
    (loadModel envOK store1 (loadModel envOK store1 cacheEmpty 1).cache 1 =
      ⟨.ok (), (loadModel envOK store1 cacheEmpty 1).cache, 0⟩ ∧
    (holdsId cacheEmpty 1 = false → (loadModel envOK store1 cacheEmpty 1).loads = 1)) :=
  ⟨rfl, loadModel_second_acquire envOK store1 cacheEmpty 1 rfl⟩

/-- C3 counterexample: with the slot holding loaded model 1, a generate
request for id 2 (no record in the store) does surface the NotFound
`ValueError`, but the failed call does NOT leave the slot unchanged:
the eviction at line 68–69 runs before the record lookup, so the
previously loaded model is dropped and the dict is left cleared. -/
theorem generateText_notfound_clears_slot :
    generateText envOK store1 cacheHolding1 2 "hi" =
      ⟨.error (.valueError ("Model with ID " ++ Nat.repr 2
          ++ " not found in the database.")), .cleared, 0⟩ ∧
    CacheDict.cleared ≠ cacheHolding1 := by
  constructor
  · rfl
  · decide

/-- C3 amended: a generation request for an id with no ModelRecord,
issued while the slot is in its normal dict shape and not already
holding that id, fails with the NotFound `ValueError`; the slot is
unchanged if no model was resident, but if a model was resident it has
been evicted and the dict is left cleared. -/
theorem generateText_missing_record (env : LLMEnv) (store : ModelStore)
    (mid mdl tok : Option Nat) (dev : String) (i : Nat) (p : String)
    (hrec : findModel store i = none) (hne : mid ≠ some i) :
    generateText env store (.full mid mdl tok dev) i p =
      ⟨.error (.valueError ("Model with ID " ++ Nat.repr i
          ++ " not found in the database.")),
        (if mdl = none then CacheDict.full mid mdl tok dev else .cleared), 0⟩ := by
  cases mdl with
  | some m => simp [generateText, loadModel, hne, hrec]
  | none => simp [generateText, loadModel, hne, hrec]

/-- Witness for `generateText_missing_record`: slot holding model 1,
request for absent id 2 — NotFound raised and the dict left cleared. -/
theorem generateText_missing_record_witness :
    generateText envOK store1 (.full (some 1) (some 1) (some 1) "cpu") 2 "hi" =
      ⟨.error (.valueError ("Model with ID " ++ Nat.repr 2
          ++ " not found in the database.")),
        (if (some 1 : Option Nat) = none then
          CacheDict.full (some 1) (some 1) (some 1) "cpu" else .cleared), 0⟩ :=
  generateText_missing_record envOK store1 (some 1) (some 1) (some 1) "cpu" 2 "hi"
    (by decide) (by decide)

/-- C1: the worker's top-level handler does NOT convert failures into
`status = 'failed'`. With the job record found and every external step
succeeding, the `try` block raises `NameError` at
`MetricsLoggerCallback(job_id=job_id)` (line 137, `job_id` undefined),
and the `except` clause itself raises the same `NameError` evaluating
its f-string (line 168) before `job.status = 'failed'` — so the
exception escapes `run_training` uncaught and the only committed state
is `status = 'running'`. -/
theorem runTraining_handler_raises :
    runTraining envWorkerOK store1 datasets1 (some job0) =
      ([{ job0 with status := .running, logs := some "Training started...\n" }],
        .uncaught (.nameError "job_id")) ∧
    workerTryExc envWorkerOK store1 datasets1
      { job0 with status := JobStatus.running, logs := some "Training started...\n" } =
      .nameError "job_id" := by
  exact ⟨rfl, rfl⟩

/-- C5: along the states a submitted job actually goes through — the
row `start_job` creates, followed by every state the spawned worker
commits — `completed_at` is non-null exactly when the status is
`completed`, and the statuses are monotone with terminal states never
regressing; moreover a metrics-callback commit never changes `status`
or `completed_at`. (In the current code the worker's only commit sets
`running`: the `NameError` bug aborts every run before a terminal
commit, so `completed`/`failed` are in fact never reached.) -/
theorem job_status_invariant (α : Type) (req : StartJobReq) (newId : Nat)
    (env : WorkerEnv) (models : ModelStore) (datasets : List DatasetRec)
    (render : α → String) (job : JobRec α) (ev : Option α) (j' : JobRec α)
    (hlog : onLog render (some job) ev = .ok (some j')) :
    (∀ jj ∈ (startJob α req newId).job ::
        (runTraining env models datasets (some (startJob α req newId).job)).1,
      jobInvariant jj) ∧
    List.Chain' statusStep
      ((startJob α req newId).job ::
        (runTraining env models datasets (some (startJob α req newId).job)).1) ∧
    (j'.status = job.status ∧ j'.completedAt = job.completedAt) := by
  refine ⟨?_, ?_, ?_⟩
  · intro jj hjj
    simp [startJob, runTraining] at hjj
    rcases hjj with h | h <;> subst h <;> simp [jobInvariant]
  · simp [startJob, runTraining, List.chain'_cons, List.chain'_singleton,
      statusStep, statusRank, isTerminal]
  · cases ev with
    | none =>
      simp [onLog] at hlog
      subst hlog
      exact ⟨rfl, rfl⟩
    | some f =>
      cases hl : job.logs with
      | none => simp [onLog, hl] at hlog
      | some l =>
        simp [onLog, hl] at hlog
        subst hlog
        exact ⟨rfl, rfl⟩

/-- Witness for `job_status_invariant`: the freshly created job row
satisfies the invariant, and a concrete metrics-callback commit leaves
`status` and `completed_at` untouched. -/
theorem job_status_invariant_witness :
    jobInvariant (startJob Nat reqPlain 5).job ∧
    (jobRunningAfter.status = jobRunning.status ∧
      jobRunningAfter.completedAt = jobRunning.completedAt) :=
  ⟨(job_status_invariant Nat reqPlain 5 envWorkerOK store1 datasets1
      Nat.repr jobRunning (some 7) jobRunningAfter rfl).1 _ (List.mem_cons_self _ _),
   (job_status_invariant Nat reqPlain 5 envWorkerOK store1 datasets1
      Nat.repr jobRunning (some 7) jobRunningAfter rfl).2.2⟩

/-- Helper: from a job whose `metrics` column already holds `ms` and
whose `logs` column holds `l`, a run of metrics-callback invocations
appends exactly the event list, in order, and folds their renderings
into the logs. -/
theorem processLogs_append {α : Type} (render : α → String) (evs : List α) :
    ∀ (job : JobRec α) (ms : List α) (l : String),
      job.metrics = some ms → job.logs = some l →
      processLogs render (some job) (evs.map some) =
        .ok (some { job with
          metrics := some (ms ++ evs),
          logs := some (evs.foldl (fun acc f => acc ++ render f ++ "\n") l) }) := by
  induction evs with
  | nil =>
    intro job ms l h0 h1
    cases job with
    | mk i m d e b st ca lg mt =>
      simp at h0 h1
      subst h0
      subst h1
      simp [processLogs]
  | cons f fs ih =>
    intro job ms l h0 h1
    have hstep : onLog render (some job) (some f) =
        .ok (some { job with
          metrics := some (ms ++ [f]),
          logs := some (l ++ render f ++ "\n") }) := by
      simp [onLog, h0, h1]
    have hrest := ih
      { job with
        metrics := some (ms ++ [f]),
        logs := some (l ++ render f ++ "\n") } (ms ++ [f]) (l ++ render f ++ "\n") rfl rfl
    simp only [List.map_cons, processLogs, hstep, hrest]
    simp [List.append_assoc]

/-- C6: starting from a job row whose `metrics` column is still null
(as `start_job` creates it) and whose `logs` column is set (as the
worker's first commit leaves it), a sequence of N progress-callback
invocations with non-null fields commits a metrics sequence that is
exactly the N events in invocation order — nothing dropped, reordered
or batched — and appends each event's rendering to the text logs in
the same order. -/
theorem metrics_sequence_exact {α : Type} (render : α → String)
    (job : JobRec α) (l : String) (evs : List α)
    (h0 : job.metrics = none) (h1 : job.logs = some l) :
    processLogs render (some job) (evs.map some) =
      .ok (some { job with
        metrics := if evs.isEmpty then none else some evs,
        logs := some (evs.foldl (fun acc f => acc ++ render f ++ "\n") l) }) := by
  cases evs with
  | nil =>
    cases job with
    | mk i m d e b st ca lg mt =>
      simp at h0 h1
      subst h0
      subst h1
      simp [processLogs]
  | cons f fs =>
    have hstep : onLog render (some job) (some f) =
        .ok (some { job with
          metrics := some ([] ++ [f]),
          logs := some (l ++ render f ++ "\n") }) := by
      simp [onLog, h0, h1]
    have hrest := processLogs_append render fs
      { job with
        metrics := some ([] ++ [f]),
        logs := some (l ++ render f ++ "\n") } ([] ++ [f]) (l ++ render f ++ "\n") rfl rfl
    simp only [List.map_cons, processLogs, hstep, hrest]
    simp

/-- Witness for `metrics_sequence_exact`: three synthetic events on a
fresh running job commit the metrics sequence `[7, 8, 9]` exactly. -/
theorem metrics_sequence_exact_witness :
    processLogs Nat.repr (some (⟨3, 1, 1, 1, 1, .running, none, some "L", none⟩ : JobRec Nat))
        ([7, 8, 9].map some) =
      .ok (some { (⟨3, 1, 1, 1, 1, .running, none, some "L", none⟩ : JobRec Nat) with
        metrics := if ([7, 8, 9] : List Nat).isEmpty then none else some [7, 8, 9],
        logs := some (([7, 8, 9] : List Nat).foldl
          (fun acc f => acc ++ Nat.repr f ++ "\n") "L") }) :=
  metrics_sequence_exact Nat.repr _ "L" [7, 8, 9] rfl rfl

/-- C9 counterexample: a submission carrying `eval_dataset_id = 7`
spawns a worker whose command line contains `--eval_dataset_id 7` —
an argument that is neither the job id nor one of the tunable
settings, contradicting "passes only the job id and the tunable
settings as command-line arguments". -/
theorem startJob_passes_eval_dataset :
    (startJob Nat req7 17).command =
      ["python", "training_service.py", Nat.repr 17,
        "--num_train_epochs", Nat.repr 2,
        "--per_device_train_batch_size", Nat.repr 4,
        "--eval_dataset_id", Nat.repr 7] ∧
    "--eval_dataset_id" ∈ (startJob Nat req7 17).command ∧
    (startJob Nat req7 17).command ≠
      ["python", "training_service.py", Nat.repr 17,
        "--num_train_epochs", Nat.repr 2,
        "--per_device_train_batch_size", Nat.repr 4] := by
  refine ⟨rfl, ?_, ?_⟩ <;> decide

/-- C9 amended: every submission creates a `pending` job row holding
the given settings (defaults 1/1), commits it before spawning the
worker, passes the job id, the tunable settings and — only when given
and truthy — the eval dataset id on the command line, and answers 202
with the job id immediately; the statuses the spawned worker ever
commits are exactly `[running]`, so a status query after submission
observes `pending` or `running`, never `completed`. -/
theorem startJob_contract (α : Type) (req : StartJobReq) (newId : Nat)
    (env : WorkerEnv) (models : ModelStore) (datasets : List DatasetRec) :
    (startJob α req newId).job.status = .pending ∧
    (startJob α req newId).job.completedAt = none ∧
    (startJob α req newId).job.settingsEpochs = req.epochs.getD 1 ∧
    (startJob α req newId).job.settingsBatch = req.batch.getD 1 ∧
    (startJob α req newId).events = [.commitJob, .spawnWorker] ∧
    (startJob α req newId).command =
      ["python", "training_service.py", Nat.repr newId,
        "--num_train_epochs", Nat.repr (req.epochs.getD 1),
        "--per_device_train_batch_size", Nat.repr (req.batch.getD 1)] ++
      (if evalTruthy req.evalDatasetId then
        ["--eval_dataset_id", Nat.repr (req.evalDatasetId.getD 0)] else []) ∧
    (startJob α req newId).responseJobId = newId ∧
    (startJob α req newId).responseCode = 202 ∧
    ((runTraining env models datasets (some (startJob α req newId).job)).1.map
      (fun j => j.status)) = [.running] := by
  refine ⟨rfl, rfl, rfl, rfl, rfl, rfl, rfl, rfl, rfl⟩

/-- Helper: `isPrefixOf` recovers the decomposition `s = p ++ rest`. -/
theorem isPrefixOf_eq_append (p s : List Char) (h : p.isPrefixOf s = true) :
    s = p ++ s.drop p.length := by
  have hp : p <+: s := List.isPrefixOf_iff_prefix.mp h
  exact (List.prefix_iff_eq_append.mp hp).symm

/-- Helper: `splitOnce` really splits at the FIRST occurrence: the
returned parts reassemble the input and the needle does not occur in
the left part. -/
theorem splitOnce_first (sep : List Char) (hne : sep ≠ []) :
    ∀ s a b, splitOnce sep s = some (a, b) →
      s = a ++ sep ++ b ∧ containsSeq sep a = false := by
  have hnil : sep.isPrefixOf [] = false := by
    cases sep with
    | nil => exact absurd rfl hne
    | cons x xs => rfl
  intro s
  induction s with
  | nil =>
    intro a b h
    simp [splitOnce, hnil] at h
  | cons c rest ih =>
    intro a b h
    by_cases hp : sep.isPrefixOf (c :: rest) = true
    · rw [splitOnce, if_pos hp] at h
      obtain ⟨ha, hb⟩ := Prod.mk.injEq .. ▸ (Option.some.inj h)
      subst ha
      subst hb
      refine ⟨?_, ?_⟩
      · simpa using isPrefixOf_eq_append sep (c :: rest) hp
      · simp [containsSeq, splitOnce, hnil]
    · rw [splitOnce, if_neg hp] at h
      cases hs : splitOnce sep rest with
      | none => rw [hs] at h; exact absurd h (by simp)
      | some p =>
        obtain ⟨a', b'⟩ := p
        rw [hs] at h
        obtain ⟨ha, hb⟩ := Prod.mk.injEq .. ▸ (Option.some.inj h)
        subst ha
        subst hb
        obtain ⟨h1, h2⟩ := ih a' b' hs
        refine ⟨by simp [h1], ?_⟩
        have hp2 : sep.isPrefixOf (c :: a') = false := by
          by_contra hcon
          have hpre : sep <+: (c :: a') :=
            List.isPrefixOf_iff_prefix.mp (by
              cases hb2 : sep.isPrefixOf (c :: a') with
              | true => rfl
              | false => exact absurd hb2 hcon)
          have hext : sep <+: (c :: rest) := by
            have : (c :: a') <+: (c :: rest) := by
              rw [h1]
              have : c :: (a' ++ sep ++ b') = (c :: a') ++ (sep ++ b') := by simp
              rw [this]
              exact List.prefix_append _ _
            exact hpre.trans this
          rw [List.isPrefixOf_iff_prefix.mpr hext] at hp
          exact hp rfl
        have hnone : splitOnce sep a' = none := by
          cases hx : splitOnce sep a' with
          | none => rfl
          | some q =>
            have : containsSeq sep a' = true := by simp [containsSeq, hx]
            rw [this] at h2
            exact absurd h2 (by simp)
        simp [containsSeq, splitOnce, hp2, hnone]

/-- C4 counterexample: a response containing neither marker. The claim
says the stored analysis is then "the full response text minus the
first marker" — i.e. the response itself when the first marker is
absent — but the code stores the placeholder
`Could not parse explanation.` instead. -/
theorem parseResponse_no_markers :
    parseResponse ("hello".toList) = (explPlaceholder, fixPlaceholder) ∧
    explPlaceholder ≠ "hello".toList ∧
    pyStrip (replaceAll explMarker [] ("hello".toList)) = "hello".toList := by
  refine ⟨by decide, by decide, by decide⟩

/-- C4 amended: if the response contains `PROPOSED_FIX:`, the stored
pair is the split at that marker's first occurrence — analysis is the
part before it with every `EXPLANATION:` occurrence removed and
whitespace-stripped, proposed fix the part after it, stripped; if
`PROPOSED_FIX:` is absent but `EXPLANATION:` occurs, the fix is the
placeholder and the analysis is the full text with `EXPLANATION:`
occurrences removed, stripped; if both markers are absent, both fields
are the placeholders. -/
theorem parseResponse_cases (r : List Char) :
    (containsSeq fixMarker r = true →
      ∃ a b, r = a ++ fixMarker ++ b ∧ containsSeq fixMarker a = false ∧
        parseResponse r = (pyStrip (replaceAll explMarker [] a), pyStrip b)) ∧
    (containsSeq fixMarker r = false → containsSeq explMarker r = true →
      parseResponse r = (pyStrip (replaceAll explMarker [] r), fixPlaceholder)) ∧
    (containsSeq fixMarker r = false → containsSeq explMarker r = false →
      parseResponse r = (explPlaceholder, fixPlaceholder)) := by
  refine ⟨?_, ?_, ?_⟩
  · intro hc
    rw [containsSeq] at hc
    cases hs : splitOnce fixMarker r with
    | none => rw [hs] at hc; exact absurd hc (by simp)
    | some p =>
      obtain ⟨a, b⟩ := p
      obtain ⟨h1, h2⟩ := splitOnce_first fixMarker (by decide) r a b hs
      exact ⟨a, b, h1, h2, by rw [parseResponse, hs]⟩
  · intro hc he
    rw [containsSeq] at hc
    cases hs : splitOnce fixMarker r with
    | none => rw [parseResponse, hs, if_pos he]
    | some p => rw [hs] at hc; exact absurd hc (by simp)
  · intro hc he
    rw [containsSeq] at hc
    cases hs : splitOnce fixMarker r with
    | none => rw [parseResponse, hs, if_neg (by rw [he]; exact Bool.false_ne_true)]
    | some p => rw [hs] at hc; exact absurd hc (by simp)

/-- Witness for `parseResponse_cases`: a response with both markers is
split at `PROPOSED_FIX:` with nothing of the markers left at the edges
of the stored fields. -/
theorem parseResponse_cases_witness :
    ∃ a b, responseBoth = a ++ fixMarker ++ b ∧
      containsSeq fixMarker a = false ∧
      parseResponse responseBoth =
        (pyStrip (replaceAll explMarker [] a), pyStrip b) :=
  (parseResponse_cases responseBoth).1 (by decide)

/-- Helper: when the agent's `try` block returns normally, the record
it returns carries `status = 'analyzed'`. -/
theorem analyzeBody_ok_status (aenv : AgentEnv) (lenv : LLMEnv) (store : ModelStore)
    (cache : CacheDict) (e1 : ErrorRec) (r : ErrorRec)
    (h : (analyzeBody aenv lenv store cache e1).1 = .ok r) :
    r.status = .analyzed := by
  unfold analyzeBody at h
  cases store with
  | nil => simp at h
  | cons m0 ms =>
    simp only at h
    cases hg : (generateText lenv (m0 :: ms) cache m0.id
        (buildPrompt e1.traceback
          (match aenv.fileRead with
            | .ok s => s
            | .error m => "Could not read source file: " ++ m)
          (e1.filePath.getD "None"))).result with
    | error e => rw [hg] at h; simp at h
    | ok text =>
      rw [hg] at h
      simp at h
      rw [← h]

/-- C8: for an existing error record, `analyze_error` always commits a
terminal status — `analyzed` on success, and for EVERY exception the
`try` block raises (no registered model, load failure, generation
failure, even the cache's `KeyError`) exactly the `analysis_failed`
record with the failure trace stored as the explanation; the agent has
no exception channel, so nothing escapes its boundary. -/
theorem analyzeError_terminal (aenv : AgentEnv) (lenv : LLMEnv) (store : ModelStore)
    (cache : CacheDict) (err : ErrorRec) :
    (∃ r, (analyzeError aenv lenv store cache (some err)).1 = some r ∧
      (r.status = .analyzed ∨ r.status = .analysisFailed)) ∧
    (∀ e, (analyzeBody aenv lenv store cache
        { err with status := ErrStatus.analyzing }).1 = .error e →
      (analyzeError aenv lenv store cache (some err)).1 =
        some { err with
          status := .analysisFailed,
          analysis := some ("Failed to complete analysis.\n\n" ++ pyExcText e) }) := by
  constructor
  · cases hres : (analyzeBody aenv lenv store cache
        { err with status := ErrStatus.analyzing }).1 with
    | ok r =>
      refine ⟨r, ?_, Or.inl (analyzeBody_ok_status _ _ _ _ _ _ hres)⟩
      simp [analyzeError, hres]
    | error e =>
      refine ⟨{ err with
          status := .analysisFailed,
          analysis := some ("Failed to complete analysis.\n\n" ++ pyExcText e) },
        ?_, Or.inr rfl⟩
      simp [analyzeError, hres]
  · intro e he
    simp [analyzeError, he]

/-- Witness for `analyzeError_terminal`: with no model registered, the
`try` block raises `RuntimeError` and the committed record is
`analysis_failed` with the trace as explanation. -/
theorem analyzeError_terminal_witness :
    (analyzeError ⟨.ok "source text"⟩ envOK [] cacheEmpty (some err0)).1 =
      some { err0 with
        status := .analysisFailed,
        analysis := some ("Failed to complete analysis.\n\n" ++
          pyExcText (.runtimeError "No local LLM models available for analysis.")) } :=
  (analyzeError_terminal ⟨.ok "source text"⟩ envOK [] cacheEmpty err0).2
    (.runtimeError "No local LLM models available for analysis.") rfl

/-- C10 counterexample: chat request for model 2 while the cache holds
model 1 (both records present). `generate_text` raises the cache
`KeyError`, which the endpoint's `except (ValueError, RuntimeError)`
does not catch; the global handler's commit then persists the pending
conversation AND the user's chat message — the claim's "persists
nothing" is false, even though a structured error is returned. -/
theorem chat_uncaught_failure_persists :
    chatEndpoint envOK store12 dbEmpty cacheHolding1 ⟨2, "hi", none, 1⟩ 100 =
      (.errJson "An internal server error occurred." 500,
        ⟨[⟨100, "hi", 1, 2⟩], [⟨100, "user", "hi"⟩], [pyExcText (.keyError "device")]⟩,
        .cleared) ∧
    (generateText envOK store12 cacheHolding1 2 "hi").result =
      .error (.keyError "device") ∧
    dbEmpty.msgs = [] := by
  exact ⟨rfl, rfl, rfl⟩

/-- C10 amended: when the generate call raises a `ValueError` or
`RuntimeError` — the classes the endpoint catches — a structured error
is returned and nothing is persisted; but when it raises any other
exception class (the cache-eviction `KeyError`), the global error
handler's commit persists the pending conversation and user message
together with the captured-error row, while still returning a
structured error. -/
theorem chat_generate_failure (lenv : LLMEnv) (store : ModelStore) (db : ChatDB)
    (cache : CacheDict) (req : ChatReq) (nextConvId cid : Nat)
    (pcs : List ConvRec) (e : PyExc)
    (hc : convSetup db req nextConvId = some (cid, pcs))
    (hg : (generateText lenv store cache req.modelId req.prompt).result = .error e) :
    (isCaught e = true →
      chatEndpoint lenv store db cache req nextConvId =
        (.errJson (pyExcText e) 500, db,
          (generateText lenv store cache req.modelId req.prompt).cache)) ∧
    (isCaught e = false →
      chatEndpoint lenv store db cache req nextConvId =
        (.errJson "An internal server error occurred." 500,
          { convs := db.convs ++ pcs,
            msgs := db.msgs ++ [⟨cid, "user", req.prompt⟩],
            capturedErrors := db.capturedErrors ++ [pyExcText e] },
          (generateText lenv store cache req.modelId req.prompt).cache)) := by
  constructor
  · intro h
    simp [chatEndpoint, hc, hg, h]
  · intro h
    simp [chatEndpoint, hc, hg, h]

/-- Witness for `chat_generate_failure`: a request for the absent model
id 99 from an empty slot raises the NotFound `ValueError`, which is
caught — the structured error returns and the store is untouched. -/
theorem chat_generate_failure_witness :
    isCaught (.valueError ("Model with ID " ++ Nat.repr 99
      ++ " not found in the database.")) = true ∧
    chatEndpoint envOK store1 dbEmpty cacheEmpty ⟨99, "hi", none, 1⟩ 100 =
      (.errJson (pyExcText (.valueError ("Model with ID " ++ Nat.repr 99
          ++ " not found in the database."))) 500,
        dbEmpty, (generateText envOK store1 cacheEmpty 99 "hi").cache) :=
  ⟨rfl,
    (chat_generate_failure envOK store1 dbEmpty cacheEmpty ⟨99, "hi", none, 1⟩ 100 100
      [⟨100, "hi", 1, 99⟩]
      (.valueError ("Model with ID " ++ Nat.repr 99 ++ " not found in the database."))
      rfl rfl).1 rfl⟩

end AIToolHub

